import Mathlib

/-!
Verification of the query-construction, caching and result-formatting layer of
the Open Library client (`lib/open_library_api.py`).

The embedding follows the source closely:

* `Args` models the argument tuple of `OpenLibraryAPI.search_books`
  (title, author, isbn, fields, limit, page, sort).  `fieldsArg = none`
  means the caller did not pass `fields`, so the mutable default list is
  used inside the body; `fieldsArg = some l` means the caller passed the
  list `l` explicitly.  Python's `functools.lru_cache` hashes the raw
  argument tuple before the body runs, and a Python `list` is unhashable,
  so an explicitly passed `fields` raises `TypeError` before anything else.
* `buildParams` is the body of `search_books` up to (and excluding) the
  HTTP request: truthiness-based validation (line 53), `str.replace(" ", "+")`
  encoding of the three text fields (lines 57-62), `",".join(fields)`
  (line 64), `min(limit, 100)` (line 65) and the sort whitelist (lines 69-74).
* `search_books` models one call of the memoized method: the
  `lru_cache(maxsize=100)` wrapper keyed on the raw arguments (an LRU
  association list bounded at 100 entries; exceptions are never stored),
  then the body, then the remote call through an `oracle`, counting
  remote calls in `ClientState.remoteCalls`.
* `formatFields` / `format_search_result` are `format_search_result`
  (lines 84-117): `dict.get` defaults, `", ".join`, the description
  dict/plain-text distinction, `description[:200] + "..."`, and the cover
  line guarded by the truthiness of `cover_i`.
-/

set_option maxRecDepth 100000

namespace OpenLibrary

/-- Decidable equality of `Except` results, needed to evaluate the model
on concrete inputs. -/
instance {ε α : Type} [DecidableEq ε] [DecidableEq α] : DecidableEq (Except ε α)
  | .error e₁, .error e₂ =>
    if h : e₁ = e₂ then .isTrue (by rw [h])
    else .isFalse (fun hc => h (Except.error.inj hc))
  | .error _, .ok _ => .isFalse Except.noConfusion
  | .ok _, .error _ => .isFalse Except.noConfusion
  | .ok a₁, .ok a₂ =>
    if h : a₁ = a₂ then .isTrue (by rw [h])
    else .isFalse (fun hc => h (Except.ok.inj hc))

/-- Python truthiness of an `Optional[str]`: `None` and `""` are falsy,
every other string (including whitespace-only) is truthy. -/
def truthyStr : Option String → Bool
  | none => false
  | some s => !(s == "")

/-- Python truthiness of an `Optional[int]`: `None` and `0` are falsy. -/
def truthyInt : Option Int → Bool
  | none => false
  | some n => !(n == 0)

/-- The default `fields` list of `search_books` (source lines 28-29). -/
def defaultFields : List String :=
  ["title", "author_name", "first_publish_year", "publisher", "isbn",
   "cover_i", "description"]

/-- `s.replace(" ", "+")` from lines 58, 60, 62.  The pattern and the
replacement are single characters, so replacing all (non-overlapping)
occurrences is exactly the character-wise map sending each space to a
plus sign. -/
def plusEncode (s : String) : String :=
  String.mk (s.data.map (fun c => if c = ' ' then '+' else c))

/-- Python slicing `s[:n]`: the first `n` characters of `s` (all of `s`
when it is shorter). -/
def pyTake (s : String) (n : Nat) : String :=
  String.mk (s.data.take n)

/-- Python `str.strip()`: leading and trailing whitespace removed.  Used
only to state what "empty after trimming" means; the source never trims. -/
def stripWhitespace (s : String) : String :=
  String.mk (((s.data.dropWhile Char.isWhitespace).reverse.dropWhile
    Char.isWhitespace).reverse)

/-- The raw argument tuple of `search_books`.  Defaults mirror the Python
signature (lines 23-32); `fieldsArg = none` stands for "argument omitted,
default list used in the body". -/
structure Args where
  title : Option String := none
  author : Option String := none
  isbn : Option String := none
  fieldsArg : Option (List String) := none
  limit : Int := 5
  page : Int := 1
  sort : Option String := none
deriving DecidableEq, Repr

/-- The `params` dictionary sent to the remote service (lines 56-74).
`none` in an optional slot means the key is not put into the dictionary. -/
structure Params where
  title : Option String
  author : Option String
  isbn : Option String
  fields : String
  limit : Int
  page : Int
  sort : Option String
deriving DecidableEq, Repr

/-- Body of `search_books` up to the HTTP request (lines 53-74): truthiness
validation, `replace(" ", "+")` encoding, `",".join(fields)`,
`min(limit, 100)`, passthrough `page`, and the sort whitelist. -/
def buildParams (a : Args) : Except String Params :=
  if !(truthyStr a.title || truthyStr a.author || truthyStr a.isbn) then
    .error "At least one search parameter (title, author, or isbn) must be provided"
  else
    .ok
      { title := if truthyStr a.title then some (plusEncode (a.title.getD "")) else none
        author := if truthyStr a.author then some (plusEncode (a.author.getD "")) else none
        isbn := if truthyStr a.isbn then some (plusEncode (a.isbn.getD "")) else none
        fields := String.intercalate "," (a.fieldsArg.getD defaultFields)
        limit := min a.limit 100
        page := a.page
        sort := if a.sort == some "new" then some "new"
                else if a.sort == some "old" then some "old"
                else if a.sort == some "title" then some "title"
                else none }

/-! ## The `lru_cache(maxsize=100)` wrapper -/

/-- Capacity of the memo: `maxsize=100` (line 22). -/
def cacheCap : Nat := 100

/-- The memo: raw-argument key to cached response, most recently used first. -/
abbrev Cache := List (Args × Nat)

/-- Linear lookup by raw-argument key. -/
def cacheFind (k : Args) : Cache → Option Nat
  | [] => none
  | (k₀, v) :: rest => if k = k₀ then some v else cacheFind k rest

/-- On a hit the entry becomes the most recently used. -/
def cachePromote (k : Args) (v : Nat) (c : Cache) : Cache :=
  (k, v) :: c.filter (fun e => e.1 ≠ k)

/-- On a miss the new entry is inserted as most recently used and the least
recently used entry is dropped if the memo is over capacity. -/
def cacheInsert (k : Args) (v : Nat) (c : Cache) : Cache :=
  ((k, v) :: c.filter (fun e => e.1 ≠ k)).take cacheCap

/-- Client state: the memo of the `lru_cache` wrapper plus a count of HTTP
requests issued (line 77). -/
structure ClientState where
  cache : Cache := []
  remoteCalls : Nat := 0
deriving DecidableEq, Repr

/-- Errors of one `search_books` call: `TypeError` from hashing an
unhashable `fields` list, `ValueError` from validation (line 54), or a
propagated `requests` exception (lines 80-82). -/
inductive SearchErr where
  | typeError
  | validation (msg : String)
  | remote
deriving DecidableEq, Repr

/-- One call of the memoized `search_books`.  `oracle` is the remote
catalog service: it maps the request parameters to a response (or a
transport failure).  Order of events, as in CPython:
1. `lru_cache` hashes the raw arguments; an explicitly passed `fields`
   list is unhashable, so the call dies with `TypeError` at once;
2. memo lookup on the raw arguments; a hit returns the stored response
   with no remote call and refreshes the entry's recency;
3. on a miss the body runs: validation may raise `ValueError` (never
   cached, no remote call), otherwise the remote call is issued;
4. a failing remote call propagates and is never cached; a successful
   response is stored, evicting the least recently used entry at capacity. -/
def search_books (oracle : Params → Except Unit Nat) (a : Args)
    (st : ClientState) : Except SearchErr Nat × ClientState :=
  if a.fieldsArg.isSome then
    (.error .typeError, st)
  else
    match cacheFind a st.cache with
    | some v => (.ok v, { st with cache := cachePromote a v st.cache })
    | none =>
      match buildParams a with
      | .error m => (.error (.validation m), st)
      | .ok p =>
        match oracle p with
        | .error _ => (.error .remote, { st with remoteCalls := st.remoteCalls + 1 })
        | .ok v =>
          (.ok v,
            { st with
              remoteCalls := st.remoteCalls + 1
              cache := cacheInsert a v st.cache })

/-- Run a sequence of `search_books` calls, threading the client state. -/
def runQueries (oracle : Params → Except Unit Nat) (qs : List Args)
    (st : ClientState) : ClientState :=
  qs.foldl (fun s a => (search_books oracle a s).2) st

/-- Fresh client: empty memo, no remote calls yet (`__init__`). -/
def initClient : ClientState := {}

/-! ## `format_search_result` -/

/-- The remote `description` value: plain text or a nested object whose
text sits under the `value` sub-key (which may be absent). -/
inductive PyDescription where
  | plain (s : String)
  | structured (value : Option String)
deriving DecidableEq, Repr

/-- A raw record from the remote service; every field may be absent. -/
structure RawRecord where
  title : Option String := none
  author_name : Option (List String) := none
  first_publish_year : Option Int := none
  publisher : Option (List String) := none
  isbn : Option (List String) := none
  cover_i : Option Int := none
  description : Option PyDescription := none
deriving DecidableEq, Repr

/-- Lines 100-103: `result.get("description", "No description available")`,
then `description.get("value", "No description available")` when the value
is a dict. -/
def descriptionText : Option PyDescription → String
  | none => "No description available"
  | some (.plain s) => s
  | some (.structured v) => v.getD "No description available"

/-- `COVER_URL.format(cover_id)` (lines 16, 115). -/
def coverUrl (i : Int) : String :=
  "https://covers.openlibrary.org/b/id/" ++ toString i ++ "-L.jpg"

/-- The field values interpolated into the output string of
`format_search_result`. -/
structure DisplayFields where
  title : String
  authors : String
  year : String
  publishers : String
  isbns : String
  description : String
  cover : Option String
deriving DecidableEq, Repr

/-- Lines 94-103 and 114: the per-field extraction of
`format_search_result`.  `dict.get` substitutes the default only when the
key is absent; the description is truncated to 200 characters and `"..."`
is appended unconditionally; the cover URL exists iff `cover_i` is truthy. -/
def formatFields (r : RawRecord) : DisplayFields :=
  { title := r.title.getD "Unknown Title"
    authors := String.intercalate ", " (r.author_name.getD ["Unknown Author"])
    year := match r.first_publish_year with
            | some y => toString y
            | none => "Unknown Year"
    publishers := String.intercalate ", " (r.publisher.getD ["Unknown Publisher"])
    isbns := String.intercalate ", " (r.isbn.getD ["Unknown ISBN"])
    description := pyTake (descriptionText r.description) 200 ++ "..."
    cover := if truthyInt r.cover_i then some (coverUrl (r.cover_i.getD 0)) else none }

/-- Lines 105-117: the assembled output string. -/
def format_search_result (r : RawRecord) : String :=
  let f := formatFields r
  let output := "Title: " ++ f.title ++
    "\nAuthor(s): " ++ f.authors ++
    "\nFirst Published: " ++ f.year ++
    "\nPublisher(s): " ++ f.publishers ++
    "\nISBN(s): " ++ f.isbns ++
    "\nDescription: " ++ f.description ++ "\n"
  match f.cover with
  | some c => output ++ "Cover: " ++ c ++ "\n"
  | none => output

end OpenLibrary

namespace OpenLibrary

/-! ## Shared concrete inputs -/

/-- A remote service that always answers successfully with `1`. -/
def constOracle : Params → Except Unit Nat := fun _ => .ok 1

/-- A remote service whose every call fails (network error / non-2xx). -/
def failOracle : Params → Except Unit Nat := fun _ => .error ()

/-- `search_books(title="The Hobbit")`. -/
def hobbitArgs : Args := { title := some "The Hobbit" }

/-- `search_books(title="The  Hobbit")` (two internal spaces). -/
def hobbitArgsWide : Args := { title := some "The  Hobbit" }

/-- The request parameters built from `hobbitArgs`. -/
def hobbitParams : Params :=
  { title := some "The+Hobbit"
    author := none
    isbn := none
    fields := "title,author_name,first_publish_year,publisher,isbn,cover_i,description"
    limit := 5
    page := 1
    sort := none }

end OpenLibrary

namespace OpenLibrary

/-! ## Claim C2: validation -/

/-- Claim C2 (corrected). The validation check of `search_books` is Python
truthiness, not trimming: the build succeeds exactly when at least one of
title/author/isbn is a non-empty string, and when all three are falsy the
call fails synchronously with the `ValueError` message, leaving a fresh
client's state untouched (no remote call is attempted). -/
theorem C2_truthiness_validation (a : Args) (oracle : Params → Except Unit Nat)
    (hf : a.fieldsArg = none) :
    ((buildParams a).toOption.isSome
        = (truthyStr a.title || truthyStr a.author || truthyStr a.isbn)) ∧
    ((truthyStr a.title || truthyStr a.author || truthyStr a.isbn) = false →
      search_books oracle a initClient =
        (.error (.validation "At least one search parameter (title, author, or isbn) must be provided"),
          initClient)) := by
  constructor
  · cases h : (truthyStr a.title || truthyStr a.author || truthyStr a.isbn) <;>
      simp [buildParams, h, Except.toOption]
  · intro h₀
    simp [search_books, hf, initClient, cacheFind, buildParams, h₀]

/-- Witness for C2: the all-defaults call (no parameters at all) fails with
the `ValueError` and performs no remote call. -/
theorem C2_truthiness_validation_witness :
    search_books constOracle {} initClient =
      (.error (.validation "At least one search parameter (title, author, or isbn) must be provided"),
        initClient) :=
  (C2_truthiness_validation {} constOracle rfl).2 rfl

/-- Claim C2 counterexample: a whitespace-only title is empty after
trimming, yet validation passes (Python truthiness) and a remote call is
issued. -/
theorem C2_counterexample :
    stripWhitespace "  " = "" ∧
    ({ title := some "  " } : Args).author = none ∧
    ({ title := some "  " } : Args).isbn = none ∧
    (search_books constOracle { title := some "  " } initClient).2.remoteCalls = 1 := by
  decide

/-! ## Claim C5: limit clamping -/

/-- Claim C5 (corrected). The limit sent to the remote service is
`min(limit, 100)`: capped above at 100, but not clamped below and never an
input error. -/
theorem C5_limit_min_cap (a : Args) (p : Params) (h : buildParams a = .ok p) :
    p.limit = min a.limit 100 := by
  unfold buildParams at h
  split at h
  · exact absurd h (by simp)
  · cases h
    rfl

/-- Witness for C5: `limit=500` is capped to 100. -/
theorem C5_limit_min_cap_witness :
    buildParams { title := some "x", limit := 500 } =
      .ok { title := some "x", author := none, isbn := none,
            fields := "title,author_name,first_publish_year,publisher,isbn,cover_i,description",
            limit := 100, page := 1, sort := none } ∧
    ({ title := some "x", author := none, isbn := none,
       fields := "title,author_name,first_publish_year,publisher,isbn,cover_i,description",
       limit := 100, page := 1, sort := none } : Params).limit = min (500 : Int) 100 :=
  ⟨rfl, C5_limit_min_cap { title := some "x", limit := 500 } _ rfl⟩

/-- Claim C5 counterexample: `limit=0` is neither rejected nor clamped to 1;
the descriptor carries limit 0, outside the claimed range [1, 100]. -/
theorem C5_counterexample :
    (buildParams { title := some "x", limit := 0 }).toOption.map Params.limit = some 0 ∧
    ¬((1 : Int) ≤ 0) := by
  decide

/-! ## Claim C6: whitespace encoding -/

/-- Claim C6 (corrected). Each present text field is encoded by replacing
every space character with `"+"` (`str.replace(" ", "+")`): runs of spaces
are not collapsed, so each space in a run yields its own `"+"`. -/
theorem C6_space_to_plus_encoding (a : Args) (p : Params)
    (h : buildParams a = .ok p) :
    (∀ t, a.title = some t → t ≠ "" → p.title = some (plusEncode t)) ∧
    (∀ t, a.author = some t → t ≠ "" → p.author = some (plusEncode t)) ∧
    (∀ t, a.isbn = some t → t ≠ "" → p.isbn = some (plusEncode t)) := by
  unfold buildParams at h
  split at h
  · exact absurd h (by simp)
  · cases h
    refine ⟨?_, ?_, ?_⟩ <;> intro t ht hne <;>
      simp [truthyStr, ht, hne, plusEncode]

/-- Witness for C6: a single-space title is sent as `"a+b"`. -/
theorem C6_space_to_plus_encoding_witness :
    ({ title := some "a+b", author := none, isbn := none,
       fields := "title,author_name,first_publish_year,publisher,isbn,cover_i,description",
       limit := 5, page := 1, sort := none } : Params).title =
      some (plusEncode "a b") :=
  (C6_space_to_plus_encoding { title := some "a b" }
    { title := some "a+b", author := none, isbn := none,
      fields := "title,author_name,first_publish_year,publisher,isbn,cover_i,description",
      limit := 5, page := 1, sort := none } rfl).1 "a b" rfl (by decide)

/-- Claim C6 counterexample: two consecutive spaces become `"++"`, so
`"The  Hobbit"` and `"The Hobbit"` do not normalize to the same wire form. -/
theorem C6_counterexample :
    (buildParams hobbitArgsWide).toOption.map Params.title = some (some "The++Hobbit") ∧
    (buildParams hobbitArgs).toOption.map Params.title = some (some "The+Hobbit") ∧
    "The++Hobbit" ≠ "The+Hobbit" := by
  decide

end OpenLibrary

namespace OpenLibrary

/-! ## Claims C3 and C4: formatting -/

/-- Claim C3 (corrected). `format_search_result` never fails and substitutes
the documented default for each field that is *absent* (missing key); the
empty record formats to exactly the all-defaults display record with no
cover URL.  (Present-but-empty values are passed through, not defaulted —
see the counterexample.) -/
theorem C3_defaults_on_absent_fields :
    (formatFields {} =
      { title := "Unknown Title", authors := "Unknown Author",
        year := "Unknown Year", publishers := "Unknown Publisher",
        isbns := "Unknown ISBN", description := "No description available...",
        cover := none }) ∧
    (∀ r : RawRecord, r.title = none → (formatFields r).title = "Unknown Title") ∧
    (∀ r : RawRecord, r.author_name = none → (formatFields r).authors = "Unknown Author") ∧
    (∀ r : RawRecord, r.first_publish_year = none → (formatFields r).year = "Unknown Year") ∧
    (∀ r : RawRecord, r.publisher = none → (formatFields r).publishers = "Unknown Publisher") ∧
    (∀ r : RawRecord, r.isbn = none → (formatFields r).isbns = "Unknown ISBN") ∧
    (∀ r : RawRecord, r.description = none →
      (formatFields r).description = "No description available...") := by
  refine ⟨rfl, ?_, ?_, ?_, ?_, ?_, ?_⟩ <;>
    · intro r h
      obtain ⟨t, an, y, pb, ib, ci, d⟩ := r
      subst h
      rfl

/-- Witness for C3: a record carrying only an author list keeps that list
and receives the title default. -/
theorem C3_defaults_on_absent_fields_witness :
    (formatFields { author_name := some ["A"] }).title = "Unknown Title" :=
  C3_defaults_on_absent_fields.2.1 { author_name := some ["A"] } rfl

/-- Claim C3 counterexample: a present-but-empty title and a present-but-
empty author list are passed through as empty strings, not replaced by the
defaults the claim requires for "absent or empty" fields. -/
theorem C3_counterexample :
    (formatFields { title := some "", author_name := some ([] : List String) }).title = "" ∧
    (formatFields { title := some "", author_name := some ([] : List String) }).authors = "" ∧
    (formatFields { title := some "", author_name := some ([] : List String) }).title
      ≠ "Unknown Title" := by
  decide

/-- Claim C4 (confirmed). The displayed description is the first 200
characters of the source text with `"..."` appended unconditionally; a
structured (dict) description contributes the text under its `value`
sub-key, with `"No description available"` substituted when that sub-key
is missing.  The ellipsis is appended even to text shorter than 200
characters. -/
theorem C4_description_truncation :
    (∀ (r : RawRecord) (s : String), r.description = some (.plain s) →
      (formatFields r).description = pyTake s 200 ++ "...") ∧
    (∀ (r : RawRecord) (t : String), r.description = some (.structured (some t)) →
      (formatFields r).description = pyTake t 200 ++ "...") ∧
    (∀ r : RawRecord, r.description = some (.structured none) →
      (formatFields r).description = pyTake "No description available" 200 ++ "...") ∧
    (formatFields { description := some (.plain "short") }).description = "short..." := by
  refine ⟨?_, ?_, ?_, rfl⟩
  · intro r s h
    obtain ⟨t, an, y, pb, ib, ci, d⟩ := r
    subst h
    rfl
  · intro r t₀ h
    obtain ⟨t, an, y, pb, ib, ci, d⟩ := r
    subst h
    rfl
  · intro r h
    obtain ⟨t, an, y, pb, ib, ci, d⟩ := r
    subst h
    rfl

/-- Witness for C4: a concrete plain-text description is truncated to 200
characters and still receives the ellipsis. -/
theorem C4_description_truncation_witness :
    (formatFields { description := some (.plain "abc") }).description
      = pyTake "abc" 200 ++ "..." :=
  C4_description_truncation.1 { description := some (.plain "abc") } "abc" rfl

/-! ## Claim C9: the fields list -/

/-- Claim C9 (code bug).  The body would join a caller-supplied field list
into the comma-separated wire form in caller order, but the
`lru_cache` wrapper hashes the raw argument tuple first and a Python list
is unhashable: every call that passes `fields` explicitly dies with
`TypeError` before the cache, the validation or the remote call is
reached.  Only calls that omit `fields` (using the default list) work. -/
theorem C9_fields_list_unhashable :
    (∀ (oracle : Params → Except Unit Nat) (a : Args) (st : ClientState) (l : List String),
      a.fieldsArg = some l → search_books oracle a st = (.error .typeError, st)) ∧
    (buildParams { title := some "hobbit", fieldsArg := some ["title", "isbn"] }).toOption.map
      Params.fields = some "title,isbn" ∧
    (search_books constOracle { title := some "hobbit", fieldsArg := some ["title"] } initClient
      = (.error .typeError, initClient)) := by
  refine ⟨?_, rfl, rfl⟩
  intro oracle a st l h
  simp [search_books, h]

/-- Witness for C9: the concrete failing call
`search_books(title="hobbit", fields=["title"])`. -/
theorem C9_fields_list_unhashable_witness :
    search_books constOracle { title := some "hobbit", fieldsArg := some ["title"] } initClient
      = (.error .typeError, initClient) :=
  C9_fields_list_unhashable.1 constOracle
    { title := some "hobbit", fieldsArg := some ["title"] } initClient ["title"] rfl

/-! ## Claim C10: cover truthiness -/

/-- Claim C10 (confirmed). The cover line is guarded by the truthiness of
`cover_i`, not by key presence: `cover_i = 0` omits the cover URL and the
whole output string equals the output for the record without `cover_i`. -/
theorem C10_cover_truthiness (r : RawRecord) :
    ((formatFields r).cover = none ↔ truthyInt r.cover_i = false) ∧
    (r.cover_i = some 0 →
      format_search_result r = format_search_result { r with cover_i := none }) := by
  obtain ⟨t, an, y, pb, ib, ci, d⟩ := r
  constructor
  · cases h : truthyInt ci <;> simp [formatFields, h]
  · intro h
    cases h
    simp [format_search_result, formatFields, truthyInt]

/-- Witness for C10: the record whose only field is `cover_i = 0` formats
exactly like the empty record. -/
theorem C10_cover_truthiness_witness :
    format_search_result { cover_i := some 0 } =
      format_search_result { ({ cover_i := some 0 } : RawRecord) with cover_i := none } :=
  (C10_cover_truthiness { cover_i := some 0 }).2 rfl

end OpenLibrary

namespace OpenLibrary

/-! ## Claims C1 and C8: caching -/

/-- Claim C1 (corrected). The memo key is the *raw* argument tuple, hashed
by `lru_cache` before the body normalizes anything: repeating the very
same arguments on a fresh client issues exactly one remote call (the
second invocation is a cache hit). -/
theorem C1_cache_hit_on_equal_raw_args (a : Args) (p : Params) (v : Nat)
    (oracle : Params → Except Unit Nat)
    (hf : a.fieldsArg = none) (hb : buildParams a = .ok p)
    (ho : oracle p = .ok v) :
    (runQueries oracle [a, a] initClient).remoteCalls = 1 := by
  simp [runQueries, search_books, hf, initClient, cacheFind, hb, ho,
    cacheInsert, cacheCap]

/-- Witness for C1: `title="The Hobbit"` queried twice issues one remote
call. -/
theorem C1_cache_hit_on_equal_raw_args_witness :
    (runQueries constOracle [hobbitArgs, hobbitArgs] initClient).remoteCalls = 1 :=
  C1_cache_hit_on_equal_raw_args hobbitArgs hobbitParams 1 constOracle rfl rfl rfl

/-- Claim C1 counterexample: `title="The Hobbit"` and `title="The  Hobbit"`
are semantically identical after whitespace normalization (same word
sequence), yet the two invocations issue two remote calls — the memo is
consulted before normalization, so the second invocation is a miss. -/
theorem C1_counterexample :
    (("The  Hobbit".data.map (fun c => if c = ' ' then '+' else c)) ≠
      ("The Hobbit".data.map (fun c => if c = ' ' then '+' else c)) →
        ("The  Hobbit".data.filter (fun c => c ≠ ' ')) =
          ("The Hobbit".data.filter (fun c => c ≠ ' '))) ∧
    (runQueries constOracle [hobbitArgs, hobbitArgsWide] initClient).remoteCalls = 2 := by
  decide

/-- Claim C8 (confirmed). A failed call is never stored: whenever one
`search_books` call returns an error of any kind, the memo is exactly what
it was before the call; and a query whose remote call fails, immediately
repeated, issues a second remote call instead of replaying a cached
failure. -/
theorem C8_failures_not_cached :
    (∀ (oracle : Params → Except Unit Nat) (a : Args) (st : ClientState) (e : SearchErr),
      (search_books oracle a st).1 = .error e →
      (search_books oracle a st).2.cache = st.cache) ∧
    (∀ (a : Args) (p : Params) (oracle : Params → Except Unit Nat),
      a.fieldsArg = none → buildParams a = .ok p → oracle p = .error () →
      runQueries oracle [a, a] initClient = { cache := [], remoteCalls := 2 }) := by
  constructor
  · intro oracle a st e h
    unfold search_books at h ⊢
    cases hf : a.fieldsArg.isSome with
    | true => simp [hf]
    | false =>
      simp only [hf, Bool.false_eq_true, if_false] at h ⊢
      cases hc : cacheFind a st.cache with
      | some v => simp [hc] at h
      | none =>
        simp only [hc] at h ⊢
        cases hb : buildParams a with
        | error m => simp [hb]
        | ok p =>
          simp only [hb] at h ⊢
          cases ho : oracle p with
          | error u => simp [ho]
          | ok v => simp [ho] at h
  · intro a p oracle hf hb ho
    simp [runQueries, search_books, hf, initClient, cacheFind, hb, ho]

/-- Witness for C8: with a failing remote service, `title="The Hobbit"`
queried twice issues two remote calls and caches nothing. -/
theorem C8_failures_not_cached_witness :
    runQueries failOracle [hobbitArgs, hobbitArgs] initClient =
      { cache := [], remoteCalls := 2 } :=
  C8_failures_not_cached.2 hobbitArgs hobbitParams failOracle rfl rfl rfl

end OpenLibrary

namespace OpenLibrary

/-! ## Claim C7: capacity and LRU eviction -/

/-- A hit key occurs in the memo, so dropping its entry shrinks the memo. -/
lemma filter_length_lt_of_cacheFind (k : Args) (v : Nat) :
    ∀ c : Cache, cacheFind k c = some v →
      (c.filter (fun e => e.1 ≠ k)).length < c.length := by
  intro c
  induction c with
  | nil => intro h; simp [cacheFind] at h
  | cons e rest ih =>
    intro h
    obtain ⟨k₀, v₀⟩ := e
    by_cases hk : k = k₀
    · subst hk
      have hdrop : ((k, v₀) :: rest).filter (fun e => e.1 ≠ k) =
          rest.filter (fun e => e.1 ≠ k) := by
        simp [List.filter_cons]
      rw [hdrop, List.length_cons]
      exact Nat.lt_succ_of_le (List.length_filter_le _ _)
    · rw [cacheFind, if_neg hk] at h
      have hne : k₀ ≠ k := fun hx => hk hx.symm
      have hkeep : ((k₀, v₀) :: rest).filter (fun e => e.1 ≠ k) =
          (k₀, v₀) :: rest.filter (fun e => e.1 ≠ k) := by
        simp [List.filter_cons, hne]
      rw [hkeep, List.length_cons, List.length_cons]
      exact Nat.succ_lt_succ (ih h)

/-- One `search_books` call keeps the memo within capacity. -/
lemma search_books_cache_bound (oracle : Params → Except Unit Nat) (a : Args)
    (st : ClientState) (h : st.cache.length ≤ cacheCap) :
    ((search_books oracle a st).2).cache.length ≤ cacheCap := by
  unfold search_books
  cases hf : a.fieldsArg.isSome with
  | true => simpa [hf]
  | false =>
    simp only [hf, Bool.false_eq_true, if_false]
    cases hc : cacheFind a st.cache with
    | some v =>
      have hlt := filter_length_lt_of_cacheFind a v st.cache hc
      simp only [cachePromote, List.length_cons]
      exact Nat.le_trans (Nat.succ_le_of_lt hlt) h
    | none =>
      cases hb : buildParams a with
      | error m => simpa
      | ok p =>
        cases ho : oracle p with
        | error u => simpa [ho] using h
        | ok v =>
          simp only [ho, cacheInsert]
          rw [List.length_take]
          exact Nat.min_le_left _ _

/-- Any run from the fresh client keeps the memo within capacity. -/
lemma runQueries_cache_bound (oracle : Params → Except Unit Nat)
    (qs : List Args) :
    ∀ st : ClientState, st.cache.length ≤ cacheCap →
      (runQueries oracle qs st).cache.length ≤ cacheCap := by
  induction qs with
  | nil => intro st h; simpa [runQueries]
  | cons q rest ih =>
    intro st h
    have hq : runQueries oracle (q :: rest) st =
        runQueries oracle rest ((search_books oracle q st).2) := rfl
    rw [hq]
    exact ih _ (search_books_cache_bound oracle q st h)

/-- The `i`-th probe query of the eviction scenario: distinct pages, all
valid, all hitting distinct memo keys. -/
def lruProbe (i : Int) : Args := { title := some "x", page := i }

/-- Remote service for the eviction scenario: always succeeds, answering
with the requested page number. -/
def lruOracle : Params → Except Unit Nat := fun p => .ok p.page.toNat

/-- The client after 101 distinct successful queries (pages 0 to 100). -/
def lruFill : ClientState :=
  runQueries lruOracle ((List.range 101).map (fun i => lruProbe i)) initClient

/-- `lruFill` after re-querying pages 1 to 100 (the 100 entries that
should still be cached). -/
def lruRevisit : ClientState :=
  runQueries lruOracle ((List.range 100).map (fun i => lruProbe (i + 1))) lruFill

set_option maxHeartbeats 8000000 in
/-- Claim C7 (confirmed). The memo is bounded at 100 distinct keys with
least-recently-used eviction: any query sequence from a fresh client keeps
the memo within capacity 100; after 101 distinct successful queries
exactly the least recently used key (page 0) has been evicted while the
other 100 are still hits (no remote call when re-queried), and re-querying
the evicted key issues a second remote call for it (the 102nd in total). -/
theorem C7_lru_bounded_eviction :
    (∀ (oracle : Params → Except Unit Nat) (qs : List Args),
      (runQueries oracle qs initClient).cache.length ≤ cacheCap) ∧
    lruFill.remoteCalls = 101 ∧
    lruFill.cache.length = 100 ∧
    cacheFind (lruProbe 0) lruFill.cache = none ∧
    lruRevisit.remoteCalls = 101 ∧
    (search_books lruOracle (lruProbe 0) lruRevisit).2.remoteCalls = 102 := by
  refine ⟨fun oracle qs =>
    runQueries_cache_bound oracle qs initClient (by simp [initClient, cacheCap]), ?_⟩
  decide

end OpenLibrary
